import Mathlib

/-!
Shallow embedding of the Query Gateway of the AgenticAIPipeline repository:
the SQL security validator and free-form executor
(src/lambda/sql_executor/lambda_function.py) and the KPI query builder,
result formatter and data-quality validator
(src/lambda/get_kpi_data/lambda_function.py).

Python strings are modelled as `List Char` (for the validator, whose rules
are character-level) or `String` (for the query builder).  Python `int` and
database numerics are modelled as `Nat` / `ℚ`.  Python dictionaries with a
fixed shape become structures; result rows become association lists.
Fallible code (exceptions) returns `Option`.
-/

set_option maxRecDepth 40000

attribute [local semireducible] Rat.mul Rat.add Rat.sub Rat.inv Rat.ofScientific

namespace Gateway

/-- Shorthand: the character list of a string literal. -/
def str (s : String) : List Char := s.data

/-- Python `str.upper()` restricted to ASCII, which is all the validator's
fixed keywords need. -/
def pyUpper (s : List Char) : List Char := s.map Char.toUpper

/-- The characters Python `str.strip()` removes by default (ASCII whitespace). -/
def isPySpace (c : Char) : Bool :=
  c = ' ' || c = '\t' || c = '\n' || c = '\r' || c = '\x0b' || c = '\x0c'

/-- Python `str.strip()`: drop leading and trailing whitespace. -/
def pyStrip (s : List Char) : List Char :=
  ((s.dropWhile isPySpace).reverse.dropWhile isPySpace).reverse

/-- Python `str.strip()` on `String`. -/
def pyStripS (s : String) : String := ⟨pyStrip s.data⟩

/-- Python `str.split(sep)` for a one-character separator: always returns
`n + 1` fragments for `n` separators (so `"".split(';') == [""]`). -/
def pySplit (sep : Char) : List Char → List (List Char)
  | [] => [[]]
  | c :: rest =>
    if c = sep then [] :: pySplit sep rest
    else
      match pySplit sep rest with
      | [] => [[c]]
      | p :: ps => (c :: p) :: ps

/-- A regex word character (`\w`) for the ASCII range used by the keywords:
letters, digits, or underscore. -/
def isWordChar (c : Char) : Bool := c.isAlphanum || c = '_'

/-- Whether the word `w` occurs in `s` starting at index `i` with a regex
word boundary (`\b`) on both sides: the characters just before and just
after the occurrence, when they exist, are not word characters. -/
def matchesAt (w s : List Char) (i : Nat) : Bool :=
  (decide ((s.drop i).take w.length = w)) &&
  (i == 0 || !(isWordChar (s.getD (i - 1) ' '))) &&
  (match s.get? (i + w.length) with
   | none => true
   | some c => !(isWordChar c))

/-- Python `re.search(r'\b' + w + r'\b', s)` for a word `w` made of word
characters: some position of `s` carries a boundary-delimited occurrence. -/
def wordBoundaryMatch (w s : List Char) : Bool :=
  (List.range (s.length + 1)).any (fun i => matchesAt w s i)

/-- The fixed forbidden-verb denylist `FORBIDDEN_OPERATIONS` of
sql_executor/lambda_function.py. -/
def FORBIDDEN_OPERATIONS : List (List Char) :=
  [str "INSERT", str "UPDATE", str "DELETE", str "DROP", str "ALTER",
   str "CREATE", str "TRUNCATE", str "EXEC", str "EXECUTE", str "MERGE",
   str "GRANT", str "REVOKE", str "COMMIT", str "ROLLBACK"]

/-- The non-empty `;`-delimited fragments of the stripped query, each fragment
itself stripped: `[s.strip() for s in query.strip().split(';') if s.strip()]`. -/
def nonEmptyStatements (q : List Char) : List (List Char) :=
  ((pySplit ';' (pyStrip q)).map pyStrip).filter (fun s => !(s.isEmpty))

/-- Return value of `validate_sql_security`: the `valid` flag, and the error
message when invalid (`none` models the absent/null error of a valid result). -/
structure ValidationResult where
  valid : Bool
  error : Option (List Char)
deriving DecidableEq, Repr

/-- Embedding of `validate_sql_security` (sql_executor/lambda_function.py,
lines 58-97).  The loop over `FORBIDDEN_OPERATIONS` returning on the first
regex hit is `List.find?`; the three rules run in source order. -/
def validate_sql_security (query : List Char) : ValidationResult :=
  let query_upper := pyUpper query
  match FORBIDDEN_OPERATIONS.find? (fun op => wordBoundaryMatch op query_upper) with
  | some op =>
    ⟨false, some (str "Forbidden operation detected: " ++ op ++
      str ". Only SELECT queries are allowed.")⟩
  | none =>
    if (nonEmptyStatements query).length > 1 then
      ⟨false, some (str "Multiple SQL statements are not allowed. Only single SELECT queries permitted.")⟩
    else if !((str "SELECT").isPrefixOf (pyStrip query_upper)) then
      ⟨false, some (str "Only SELECT queries are allowed.")⟩
    else ⟨true, none⟩

/-- Conjunction of the three validator rules, phrased exactly as the code
tests them: no forbidden verb matches, at most one non-empty statement, and
the trimmed uppercased query starts with `SELECT`. -/
def passesAllRules (q : List Char) : Bool :=
  (FORBIDDEN_OPERATIONS.find? (fun op => wordBoundaryMatch op (pyUpper q))).isNone &&
  !((nonEmptyStatements q).length > 1) &&
  (str "SELECT").isPrefixOf (pyStrip (pyUpper q))

/-! Database values and rows.  `DictCursor` returns each row as a mapping
from column name to a NULL, a numeric (DECIMAL/INT, modelled exactly as a
rational), a DATE, or a character value.  Formatted output additionally
contains rendered strings, covered by the same `txt` constructor. -/

/-- A cell value of a result row. -/
inductive Val where
  | null : Val
  | num (q : ℚ) : Val
  | date (y m d : Nat) : Val
  | txt (s : String) : Val
deriving DecidableEq, Repr

/-- A result row: association list from column name to value (Python dict
with string keys; keys are unique in rows produced by the database). -/
abbrev Row := List (String × Val)

/-- Result value of `execute_query` (sql_executor/lambda_function.py):
`{success, data, row_count, execution_time_ms, error}`. -/
structure ExecResult where
  success : Bool
  data : List Row
  row_count : Nat
  execution_time_ms : Nat
  error : Option String
deriving DecidableEq, Repr

/-- Abstraction of one pymysql interaction inside `execute_query`: the query
either fetches rows in some elapsed time, raises `OperationalError` (whose
`args[0]` is `code` and whose `str(e)` is `msg`), raises another
`MySQLError`, or raises any other exception. -/
inductive DbOutcome where
  | ok (rows : List Row) (elapsed : Nat) : DbOutcome
  | opErr (code : Nat) (msg : String) : DbOutcome
  | sqlErr (msg : String) : DbOutcome
  | exc (msg : String) : DbOutcome

/-- The timeout error message of `execute_query`. -/
def timeoutMsg (timeout : Nat) : String :=
  "Query execution timeout after " ++ toString timeout ++
    " seconds. Try narrowing your date range or filters."

/-- The non-timeout `OperationalError` message of `execute_query`. -/
def operationalErrMsg (msg : String) : String :=
  "Database operational error: " ++ pyStripS msg

/-- The `MySQLError` message of `execute_query`. -/
def databaseErrMsg (msg : String) : String :=
  "Database error: " ++ pyStripS msg

/-- The catch-all exception message of `execute_query`. -/
def executionErrMsg (msg : String) : String :=
  "Execution error: " ++ pyStripS msg

/-- Embedding of `execute_query` (sql_executor/lambda_function.py, lines
100-194) as a function of the single database interaction it performs: each
`except` arm maps one failure class to one structured result, and no class
re-runs the query. -/
def execute_query (outcome : DbOutcome) (timeout : Nat) : ExecResult :=
  match outcome with
  | .ok rows elapsed => ⟨true, rows, rows.length, elapsed, none⟩
  | .opErr code msg =>
    if code = 3024 then
      ⟨false, [], 0, timeout * 1000, some (timeoutMsg timeout)⟩
    else
      ⟨false, [], 0, 0, some (operationalErrMsg msg)⟩
  | .sqlErr msg => ⟨false, [], 0, 0, some (databaseErrMsg msg)⟩
  | .exc msg => ⟨false, [], 0, 0, some (executionErrMsg msg)⟩

/-! The KPI query builder (get_kpi_data/lambda_function.py). -/

/-- Python `int()` applied to the digit strings produced by splitting a
`YYYY-MM` date (the only inputs the date helpers feed it). -/
def digitsToNat? (s : List Char) : Option Nat :=
  if !(s.isEmpty) && s.all Char.isDigit then
    some (s.foldl (fun a c => a * 10 + (c.toNat - '0'.toNat)) 0)
  else none

/-- Python `calendar.isleap`. -/
def isLeap (y : Nat) : Bool := y % 4 = 0 && (y % 100 ≠ 0 || y % 400 = 0)

/-- Python `calendar.monthrange(y, m)[1]`: the number of days of month `m`
of year `y`. -/
def monthDays (y m : Nat) : Nat :=
  if m = 2 then (if isLeap y then 29 else 28)
  else if m = 4 || m = 6 || m = 9 || m = 11 then 30
  else 31

/-- Python `f"{n:02d}"` for the day numbers produced by `monthDays`. -/
def pad2 (n : Nat) : String :=
  if n < 10 then "0" ++ toString n else toString n

/-- Embedding of `normalize_date_format` (get_kpi_data/lambda_function.py,
lines 232-244): a 7-character `YYYY-MM` date gets `-01` appended; anything
else is returned unchanged. -/
def normalize_date_format (date_str : String) : String :=
  if date_str.length = 7 then date_str ++ "-01" else date_str

/-- Embedding of `get_last_day_of_month` (get_kpi_data/lambda_function.py,
lines 247-261): a 7-character date is split on `-`, parsed as year and
month, and extended with the last day of that month; other lengths pass
through.  `none` models the exceptions Python raises on a 7-character
string that does not split into a valid year and month (ValueError from
`int`/unpacking, `calendar`/`datetime` errors for months outside 1..12 or
years outside 1..9999). -/
def get_last_day_of_month (date_str : String) : Option String :=
  if date_str.length = 7 then
    match pySplit '-' date_str.data with
    | [ys, ms] =>
      match digitsToNat? ys, digitsToNat? ms with
      | some y, some m =>
        if 1 ≤ m ∧ m ≤ 12 ∧ 1 ≤ y ∧ y ≤ 9999 then
          some (date_str ++ "-" ++ pad2 (monthDays y m))
        else none
      | _, _ => none
    | _ => none
  else some date_str

/-- One entry of the KPI id → column mapping (`get_kpi_mapping`). -/
structure KpiMeta where
  column : String
  name : String
  unit : String
  chain : String
deriving DecidableEq, Repr

/-- One element of the `kpi_info` list returned by `build_kpi_query`. -/
structure KpiInfoEntry where
  kpi_id : Nat
  column : String
  name : String
  unit : String
  chain : String
deriving DecidableEq, Repr

/-- The `kpi_info` dictionary appended for a resolved KPI id. -/
def mkEntry (id : Nat) (m : KpiMeta) : KpiInfoEntry :=
  ⟨id, m.column, m.name, m.unit, m.chain⟩

/-- Python `set.add`, modelled as an order-preserving no-duplicate insert
(set iteration order is unspecified in Python; only membership and
cardinality of these sets matter downstream). -/
def insertNoDup (l : List String) (x : String) : List String :=
  if x ∈ l then l else l ++ [x]

/-- State of the resolution loop of `build_kpi_query`: the
`columns_to_select` set, the `chains_to_filter` set and the `kpi_info`
list. -/
structure ResolveState where
  columns : List String
  chains : List String
  kpi_info : List KpiInfoEntry
deriving DecidableEq, Repr

/-- The `for kpi_id in kpi_ids` loop of `build_kpi_query` (lines 302-313):
ids found in the mapping contribute their column and chain to the two sets
and append an entry to `kpi_info`; unmapped ids are skipped. -/
def resolveAux (mapping : Nat → Option KpiMeta) (st : ResolveState) :
    List Nat → ResolveState
  | [] => st
  | id :: rest =>
    match mapping id with
    | none => resolveAux mapping st rest
    | some m =>
      resolveAux mapping
        ⟨insertNoDup st.columns m.column, insertNoDup st.chains m.chain,
          st.kpi_info ++ [mkEntry id m]⟩ rest

/-- Resolution of the requested KPI ids from the empty state. -/
def resolveKpis (mapping : Nat → Option KpiMeta) (kpi_ids : List Nat) :
    ResolveState :=
  resolveAux mapping ⟨[], [], []⟩ kpi_ids

/-- Lexicographic comparison of strings by character code, the order of
Python `sorted` on the ASCII column names. -/
def strLe (a b : String) : Bool :=
  let rec go : List Char → List Char → Bool
    | [], _ => true
    | _ :: _, [] => false
    | x :: xs, y :: ys => if x = y then go xs ys else decide (x < y)
  go a.data b.data

/-- Python `sorted` on a list of strings (insertion sort; the input is a
duplicate-free set, so stability is immaterial). -/
def sortStrings (l : List String) : List String :=
  l.foldr insSorted []
where
  insSorted (x : String) : List String → List String
    | [] => [x]
    | y :: ys => if strLe x y then x :: y :: ys else y :: insSorted x ys

/-- Order-preserving de-duplication, the `seen` comprehension of
`build_kpi_query` (lines 337-338). -/
def dedupFirst : List String → List String :=
  go []
where
  go (seen : List String) : List String → List String
    | [] => []
    | x :: xs => if x ∈ seen then go seen xs else x :: go (x :: seen) xs

/-- The fixed projection columns of `build_kpi_query`. -/
def baseSelectColumns : List String :=
  ["mon_year as period", "parent_chain_group", "company_chain",
   "channel_group", "channel"]

/-- The SELECT column list of `build_kpi_query` (lines 315-338): fixed
projection, sorted resolved columns, contextual sibling columns for
revenue / volume / out-of-stock selections, then order-preserving
de-duplication. -/
def kpiSelectColumns (cols : List String) : List String :=
  dedupFirst
    (baseSelectColumns ++ sortStrings cols ++
      (if "cy_revenue" ∈ cols ∨ "cy_sss_revenue" ∈ cols then
        ["py_revenue", "revenue_variance", "revenue_variance_percent"] else []) ++
      (if "cy_volume" ∈ cols ∨ "cy_sss_volume" ∈ cols then
        ["py_volume", "volume_variance", "percent_volume_change"] else []) ++
      (if "cy_oos_percent" ∈ cols then ["py_oos_percent"] else []))

/-- Python `sep.join(parts)`. -/
def pyJoin (sep : String) : List String → String
  | [] => ""
  | [x] => x
  | x :: y :: rest => x ++ sep ++ pyJoin sep (y :: rest)

/-- The WHERE clause list of `build_kpi_query` (lines 340-349): both date
bounds always, plus the `parent_chain_group` constraint exactly when the
chain set is non-empty with fewer than two elements. -/
def kpiWhereClauses (start_date end_date : String) (chains : List String) :
    List String :=
  ["mon_year >= \x27" ++ start_date ++ "\x27",
   "mon_year <= \x27" ++ end_date ++ "\x27"] ++
  (if chains ≠ [] ∧ chains.length < 2 then
    ["parent_chain_group IN (\x27" ++ pyJoin "\x27, \x27" chains ++ "\x27)"]
   else [])

/-- The query f-string of `build_kpi_query` (lines 352-358), with its exact
whitespace. -/
def assembleQuery (cols whereClauses : List String) : String :=
  "\n        SELECT \n            " ++ pyJoin ", " cols ++
  "\n        FROM reddyice_s3_commercial_money\n        WHERE " ++
  pyJoin " AND " whereClauses ++
  "\n        ORDER BY mon_year, parent_chain_group\n    "

/-- Embedding of `build_kpi_query` (get_kpi_data/lambda_function.py, lines
264-360), parameterised by the cached KPI mapping.  `frequency` and
`org_id` are accepted and unused, as in the source.  `none` models the
exception propagated from `get_last_day_of_month`. -/
def build_kpi_query (mapping : Nat → Option KpiMeta) (kpi_ids : List Nat)
    (start_date end_date : String) (frequency org_id : String) :
    Option (String × List KpiInfoEntry) :=
  let sd := normalize_date_format start_date
  match get_last_day_of_month end_date with
  | none => none
  | some ed =>
    let st := resolveKpis mapping kpi_ids
    some (assembleQuery (kpiSelectColumns st.columns) (kpiWhereClauses sd ed st.chains),
      st.kpi_info)

/-! Result formatting (`format_kpi_results`) and data-quality validation
(`validate_data_quality`).  Numeric rendering models Python's fixed-point
format specifiers over exact rationals with round-half-to-even; the sign of
a negative value rounding to zero is dropped, a display nuance no claim
touches. -/

/-- Round a rational to the nearest integer, ties to even (the rounding of
Python's fixed-point formatting). -/
def roundHalfEven (q : ℚ) : Int :=
  let d : Int := (q.den : Int)
  let f : Int := Int.fdiv q.num d
  let r : Int := q.num - f * d
  if 2 * r < d then f
  else if d < 2 * r then f + 1
  else if f % 2 = 0 then f else f + 1

/-- Python `f"{q:.2f}"`. -/
def fixed2 (q : ℚ) : String :=
  let n := roundHalfEven (q * 100)
  (if n < 0 then "-" else "") ++ toString (n.natAbs / 100) ++ "." ++ pad2 (n.natAbs % 100)

/-- Python `f"{q:.1f}"`. -/
def fixed1 (q : ℚ) : String :=
  let n := roundHalfEven (q * 10)
  (if n < 0 then "-" else "") ++ toString (n.natAbs / 10) ++ "." ++ toString (n.natAbs % 10)

/-- Split a reversed digit string into groups of three. -/
def chunk3 : List Char → List (List Char)
  | [] => []
  | [a] => [[a]]
  | [a, b] => [[a, b]]
  | a :: b :: c :: rest => [a, b, c] :: chunk3 rest

/-- Insert thousands separators into the digit string of a natural number. -/
def groupDigits (n : Nat) : String :=
  ⟨(List.intercalate [','] (chunk3 ((toString n).data.reverse))).reverse⟩

/-- Python `f"{q:,.2f}"`. -/
def grouped2 (q : ℚ) : String :=
  let n := roundHalfEven (q * 100)
  (if n < 0 then "-" else "") ++ groupDigits (n.natAbs / 100) ++ "." ++ pad2 (n.natAbs % 100)

/-- Python `f"{q:,.0f}"`. -/
def grouped0 (q : ℚ) : String :=
  let n := roundHalfEven q
  (if n < 0 then "-" else "") ++ groupDigits n.natAbs

/-- Python `str(value)` for the cell values of this table: dates render in
ISO form (`datetime.date.__str__`), character data renders as itself, and
exact decimals render with the fewest fixed-point digits (the scale of the
stored DECIMAL is not recoverable from an exact rational, and no claim
depends on it). -/
def pyStr (v : Val) : String :=
  match v with
  | .null => "None"
  | .txt s => s
  | .date y m d => pad4 y ++ "-" ++ pad2 m ++ "-" ++ pad2 d
  | .num q =>
    match (List.range 31).find? (fun k => ((10 : Int) ^ k) % q.den = 0) with
    | some k =>
      let n : Int := q.num * ((10 : Int) ^ k / q.den)
      if k = 0 then toString n
      else
        (if n < 0 then "-" else "") ++ toString (n.natAbs / 10 ^ k) ++ "." ++
          (let frac := toString (n.natAbs % 10 ^ k)
           ⟨List.replicate (k - frac.length) '0'⟩ ++ frac)
    | none => toString q.num ++ "/" ++ toString q.den
where
  pad4 (n : Nat) : String :=
    let s := toString n
    ⟨List.replicate (4 - s.length) '0'⟩ ++ s

/-- Python `sub in s` on lowercased keys. -/
def containsSub (sub s : String) : Bool := decide (sub.data <:+: s.data)

/-- Python `str.lower()` restricted to ASCII (the column names). -/
def pyLower (s : String) : String := ⟨s.data.map Char.toLower⟩

/-- One iteration of the inner loop of `format_kpi_results` (lines 441-471):
the pairs appended to `formatted_row` for one input pair, in source branch
order.  `none` models the `TypeError` Python would raise when a formatting
branch meets a non-numeric value (never the case for this table's data). -/
def cellFormat (key : String) (v : Val) : Option (List (String × Val)) :=
  if v = .null then some [(key, .null)]
  else if containsSub "revenue" (pyLower key) then
    match v with
    | .num q => some [(key, v), (key ++ "_formatted", .txt ("$" ++ grouped2 q))]
    | _ => none
  else if containsSub "percent" (pyLower key) || containsSub "oos" (pyLower key) then
    match v with
    | .num q =>
      some [(key, v),
        (key ++ "_formatted",
          .txt ((if q < 1 then fixed2 (q * 100) else fixed2 q) ++ "%"))]
    | _ => none
  else if containsSub "volume" (pyLower key) || containsSub "count" (pyLower key) then
    match v with
    | .num q => some [(key, v), (key ++ "_formatted", .txt (grouped0 q))]
    | _ => none
  else if key = "period" || containsSub "date" (pyLower key) then
    -- the table's values are never `datetime.datetime` instances, so the
    -- `isinstance` branch is dead and both slots get `str(value)`
    some [(key, .txt (pyStr v)), (key ++ "_formatted", .txt (pyStr v))]
  else some [(key, v)]

/-- The formatted row built from one raw row by `format_kpi_results`. -/
def formatRow (row : Row) : Option Row :=
  (row.mapM (fun kv => cellFormat kv.1 kv.2)).map List.flatten

/-- Embedding of `format_kpi_results` (get_kpi_data/lambda_function.py,
lines 422-475).  The `kpi_info` argument is accepted and unused, as in the
source. -/
def format_kpi_results (results : List Row) (kpi_info : List KpiInfoEntry) :
    Option (List Row) :=
  results.mapM formatRow

/-- Return value of `validate_data_quality`. -/
structure DataQuality where
  valid : Bool
  issues : List String
  warnings : List String
  row_count : Nat
deriving DecidableEq, Repr

/-- Python `row.get(col)`: first value bound to the key, `null` when the
key is absent (`None`). -/
def rowGet (col : String) (row : Row) : Val :=
  match row.find? (fun kv => kv.1 = col) with
  | some kv => kv.2
  | none => .null

/-- Increment the counter of `k` in an insertion-ordered counts list
(`null_counts[key] = null_counts.get(key, 0) + 1`). -/
def bumpKey (k : String) : List (String × Nat) → List (String × Nat)
  | [] => [(k, 1)]
  | (k', c) :: rest =>
    if k' = k then (k', c + 1) :: rest else (k', c) :: bumpKey k rest

/-- The `null_counts` dictionary of `validate_data_quality` (lines 386-390):
for each column, in first-encounter order, the number of items with a null
value. -/
def nullCounts (rows : List Row) : List (String × Nat) :=
  rows.foldl
    (fun acc row =>
      row.foldl (fun acc kv => if kv.2 = Val.null then bumpKey kv.1 acc else acc) acc)
    []

/-- The null-ratio message `f"Column '{col}' has {pct:.1f}% null values"`. -/
def nullRatioMsg (col : String) (pct : ℚ) : String :=
  "Column \x27" ++ col ++ "\x27 has " ++ fixed1 pct ++ "% null values"

/-- The issues recorded by the null-ratio pass: columns whose null
percentage strictly exceeds 50. -/
def nullIssues (n : Nat) (counts : List (String × Nat)) : List String :=
  counts.filterMap (fun kc =>
    let pct : ℚ := (kc.2 : ℚ) / (n : ℚ) * 100
    if 50 < pct then some (nullRatioMsg kc.1 pct) else none)

/-- The warnings recorded by the null-ratio pass: columns whose null
percentage is in (10, 50]. -/
def nullWarnings (n : Nat) (counts : List (String × Nat)) : List String :=
  counts.filterMap (fun kc =>
    let pct : ℚ := (kc.2 : ℚ) / (n : ℚ) * 100
    if 50 < pct then none
    else if 10 < pct then some (nullRatioMsg kc.1 pct) else none)

/-- The hard-coded outlier scan columns of `validate_data_quality`. -/
def numericColumns : List String :=
  ["cy_revenue", "cy_volume", "cy_oos_percent", "store_count"]

/-- The non-null values of one column across the rows, as rationals;
`none` models the `TypeError` of `sum` on non-numeric values (never the
case for these columns). -/
def numVals? (rows : List Row) (col : String) : Option (List ℚ) :=
  (rows.filterMap (fun row =>
    match rowGet col row with
    | .null => none
    | v => some v)).mapM
    (fun v => match v with | .num q => some q | _ => none)

/-- The outlier warnings for one column (lines 401-412): values above ten
times the column average, skipped when the column is empty or averages
zero. -/
def outlierWarnings (rows : List Row) (col : String) : Option (List String) :=
  (numVals? rows col).map (fun vals =>
    if vals.isEmpty then []
    else
      let avg : ℚ := vals.sum / (vals.length : ℚ)
      if avg = 0 then []
      else
        let outliers := vals.filter (fun v => avg * 10 < v)
        if outliers.isEmpty then []
        else ["Column \x27" ++ col ++ "\x27 has " ++ toString outliers.length ++
          " extreme outliers"])

/-- Embedding of `validate_data_quality` (get_kpi_data/lambda_function.py,
lines 363-419). -/
def validate_data_quality (results : List Row) : Option DataQuality :=
  if results.isEmpty then
    some ⟨false, ["No data returned for the specified date range and KPI IDs"], [], 0⟩
  else
    let counts := nullCounts results
    let issues := nullIssues results.length counts
    let warns := nullWarnings results.length counts
    match numericColumns.mapM (outlierWarnings results) with
    | none => none
    | some outl => some ⟨issues.isEmpty, issues, warns ++ outl.flatten, results.length⟩

/-! Theorems about the SQL security validator. -/

/-- C1: a query containing any forbidden verb as a standalone word
(case-insensitive, word-boundary match) is rejected, with the error naming
a forbidden verb so occurring; a query in which no forbidden verb occurs
as a standalone word (only, say, as a substring of a longer identifier) is
not rejected by the forbidden-verb rule, and is accepted provided the
remaining two rules pass. -/
theorem c1_forbidden_verb_rule (q : List Char) :
    ((∃ v ∈ FORBIDDEN_OPERATIONS, wordBoundaryMatch v (pyUpper q) = true) →
      (validate_sql_security q).valid = false ∧
      ∃ v ∈ FORBIDDEN_OPERATIONS, wordBoundaryMatch v (pyUpper q) = true ∧
        ∃ e, (validate_sql_security q).error = some e ∧ v <:+: e) ∧
    ((∀ v ∈ FORBIDDEN_OPERATIONS, wordBoundaryMatch v (pyUpper q) = false) →
      (nonEmptyStatements q).length ≤ 1 →
      (str "SELECT").isPrefixOf (pyStrip (pyUpper q)) = true →
      validate_sql_security q = ⟨true, none⟩) := by
  constructor
  · rintro ⟨v, hv, hm⟩
    rcases hfind : FORBIDDEN_OPERATIONS.find? (fun op => wordBoundaryMatch op (pyUpper q))
      with _ | op
    · exact absurd hm (by simpa using List.find?_eq_none.mp hfind v hv)
    · have hop : wordBoundaryMatch op (pyUpper q) = true := by
        simpa using List.find?_some hfind
      refine ⟨by simp [validate_sql_security, hfind],
        op, List.mem_of_find?_eq_some hfind, hop,
        str "Forbidden operation detected: " ++ op ++ str ". Only SELECT queries are allowed.",
        by simp [validate_sql_security, hfind],
        str "Forbidden operation detected: ", str ". Only SELECT queries are allowed.", rfl⟩
  · intro hall hlen hsel
    have hfind : FORBIDDEN_OPERATIONS.find? (fun op => wordBoundaryMatch op (pyUpper q)) = none :=
      List.find?_eq_none.mpr (fun x hx => by simp [hall x hx])
    have h1 : ¬ ((nonEmptyStatements q).length > 1) := by omega
    simp [validate_sql_security, hfind, h1, hsel]

/-- Witness for C1: `delete` as a standalone word is rejected, while
`inserted_by`, which contains the forbidden verb INSERT only as a
substring of a longer identifier, is accepted. -/
theorem c1_forbidden_verb_rule_witness :
    (validate_sql_security (str "SELECT x FROM t WHERE action = delete")).valid = false ∧
    validate_sql_security (str "SELECT inserted_by FROM orders") = ⟨true, none⟩ :=
  ⟨((c1_forbidden_verb_rule (str "SELECT x FROM t WHERE action = delete")).1 (by decide)).1,
    (c1_forbidden_verb_rule (str "SELECT inserted_by FROM orders")).2
      (by decide) (by decide) (by decide)⟩

/-- C2: a query with more than one non-empty semicolon-delimited statement
is rejected; a query with exactly one non-empty statement (in particular a
single statement with a trailing semicolon) is accepted provided the
forbidden-verb and SELECT-prefix rules pass, which the surrounding claim
presumes of its single SELECT statement. -/
theorem c2_multiple_statement_rule (q : List Char) :
    ((nonEmptyStatements q).length > 1 → (validate_sql_security q).valid = false) ∧
    ((nonEmptyStatements q).length = 1 →
      (∀ v ∈ FORBIDDEN_OPERATIONS, wordBoundaryMatch v (pyUpper q) = false) →
      (str "SELECT").isPrefixOf (pyStrip (pyUpper q)) = true →
      (validate_sql_security q).valid = true) := by
  constructor
  · intro hlen
    rcases hfind : FORBIDDEN_OPERATIONS.find? (fun op => wordBoundaryMatch op (pyUpper q))
      with _ | op
    · simp [validate_sql_security, hfind, hlen]
    · simp [validate_sql_security, hfind]
  · intro hlen hall hsel
    have hfind : FORBIDDEN_OPERATIONS.find? (fun op => wordBoundaryMatch op (pyUpper q)) = none :=
      List.find?_eq_none.mpr (fun x hx => by simp [hall x hx])
    have h1 : ¬ ((nonEmptyStatements q).length > 1) := by omega
    simp [validate_sql_security, hfind, h1, hsel]

/-- Witness for C2: two statements are rejected; one statement with a
trailing semicolon is accepted. -/
theorem c2_multiple_statement_rule_witness :
    (validate_sql_security (str "SELECT 1; SELECT 2")).valid = false ∧
    (validate_sql_security (str "SELECT * FROM reddyice_s3_commercial_money;")).valid = true :=
  ⟨(c2_multiple_statement_rule (str "SELECT 1; SELECT 2")).1 (by decide),
    (c2_multiple_statement_rule (str "SELECT * FROM reddyice_s3_commercial_money;")).2
      (by decide) (by decide) (by decide)⟩

/-- C3: the validator's result always has the `{valid, error}` shape: a
query passing all three rules yields `valid = true` with no error, and a
query failing any rule yields `valid = false` with a non-empty error
message. -/
theorem c3_result_shape (q : List Char) :
    (passesAllRules q = true → validate_sql_security q = ⟨true, none⟩) ∧
    (passesAllRules q = false →
      (validate_sql_security q).valid = false ∧
      ∃ e, (validate_sql_security q).error = some e ∧ e ≠ []) := by
  constructor
  · intro h
    have h' := h
    simp only [passesAllRules, Bool.and_eq_true, Option.isNone_iff_eq_none,
      decide_eq_true_eq] at h'
    obtain ⟨⟨hfind, hlen⟩, hsel⟩ := h'
    have h1 : ¬ ((nonEmptyStatements q).length > 1) := by
      simpa using hlen
    simp [validate_sql_security, hfind, h1, hsel]
  · intro h
    rcases hfind : FORBIDDEN_OPERATIONS.find? (fun op => wordBoundaryMatch op (pyUpper q))
      with _ | op
    · by_cases hlen : (nonEmptyStatements q).length > 1
      · refine ⟨by simp [validate_sql_security, hfind, hlen], ?_⟩
        exact ⟨str "Multiple SQL statements are not allowed. Only single SELECT queries permitted.",
          by simp [validate_sql_security, hfind, hlen], by decide⟩
      · have hsel : (str "SELECT").isPrefixOf (pyStrip (pyUpper q)) = false := by
          simp only [passesAllRules, hfind, Option.isNone_none, Bool.true_and,
            Bool.and_eq_false_iff] at h
          rcases h with h | h
          · exact absurd h (by simp [hlen])
          · exact h
        refine ⟨by simp [validate_sql_security, hfind, hlen, hsel], ?_⟩
        exact ⟨str "Only SELECT queries are allowed.",
          by simp [validate_sql_security, hfind, hlen, hsel], by decide⟩
    · refine ⟨by simp [validate_sql_security, hfind], ?_⟩
      refine ⟨str "Forbidden operation detected: " ++ op ++ str ". Only SELECT queries are allowed.",
        by simp [validate_sql_security, hfind], ?_⟩
      intro hnil
      have : (str "Forbidden operation detected: ") = [] := by
        have := congrArg (List.take (str "Forbidden operation detected: ").length) hnil
        simpa using this
      exact absurd this (by decide)

/-- Witness for C3: both shapes occur: a fully valid query, and a query
failing the forbidden-verb rule. -/
theorem c3_result_shape_witness :
    validate_sql_security (str "SELECT 1") = ⟨true, none⟩ ∧
    (validate_sql_security (str "DROP TABLE t")).valid = false :=
  ⟨(c3_result_shape (str "SELECT 1")).1 (by decide),
    ((c3_result_shape (str "DROP TABLE t")).2 (by decide)).1⟩

/-- C10: the starts-with-SELECT rule is a plain string-prefix test on the
trimmed uppercased query, not a whole-word test: this single-statement
query contains no forbidden verb, does not contain the keyword SELECT as a
standalone word (its first token merely begins with the letters SELECT),
and the validator accepts it. -/
theorem c10_select_prefix_not_whole_word :
    (nonEmptyStatements (str "SELECTIONS FROM t")).length = 1 ∧
    (∀ v ∈ FORBIDDEN_OPERATIONS,
      wordBoundaryMatch v (pyUpper (str "SELECTIONS FROM t")) = false) ∧
    wordBoundaryMatch (str "SELECT") (pyUpper (str "SELECTIONS FROM t")) = false ∧
    validate_sql_security (str "SELECTIONS FROM t") = ⟨true, none⟩ := by
  refine ⟨by decide, ?_, by decide, by decide⟩
  decide

/-! Theorems about the free-form executor. -/

/-- Two strings with incomparable fixed prefixes are distinct. -/
theorem ne_of_incomparable_prefixes {t1 t2 : List Char} {m1 m2 : String}
    (h1 : t1 <+: m1.data) (h2 : t2 <+: m2.data)
    (hno : ¬ (t1 <+: t2 ∨ t2 <+: t1)) : m1 ≠ m2 := by
  intro he
  subst he
  exact hno (List.prefix_or_prefix_of_prefix h1 h2)

/-- C9: a timeout-class failure (`OperationalError` with the server's
execution-interrupted code 3024) yields `success = false`, empty data,
`row_count = 0` and a non-null error containing the word "timeout"; the
other failure classes return the same zeroed shape with their own message
templates; and the four failure messages are pairwise distinct whatever
the underlying exception text.  (No class re-runs the query: each arm of
`execute_query` maps its single database interaction straight to a
result.) -/
theorem c9_failure_classification :
    (∀ msg t, (execute_query (.opErr 3024 msg) t).success = false ∧
      (execute_query (.opErr 3024 msg) t).data = [] ∧
      (execute_query (.opErr 3024 msg) t).row_count = 0 ∧
      ∃ e, (execute_query (.opErr 3024 msg) t).error = some e ∧
        str "timeout" <:+: e.data) ∧
    (∀ code msg t, code ≠ 3024 →
      execute_query (.opErr code msg) t = ⟨false, [], 0, 0, some (operationalErrMsg msg)⟩) ∧
    (∀ msg t, execute_query (.sqlErr msg) t = ⟨false, [], 0, 0, some (databaseErrMsg msg)⟩) ∧
    (∀ msg t, execute_query (.exc msg) t = ⟨false, [], 0, 0, some (executionErrMsg msg)⟩) ∧
    (∀ t msg msg2,
      timeoutMsg t ≠ operationalErrMsg msg ∧
      timeoutMsg t ≠ databaseErrMsg msg ∧
      timeoutMsg t ≠ executionErrMsg msg ∧
      operationalErrMsg msg ≠ databaseErrMsg msg2 ∧
      operationalErrMsg msg ≠ executionErrMsg msg2 ∧
      databaseErrMsg msg ≠ executionErrMsg msg2) := by
  have pt : ∀ t : Nat, str "Query execution timeout after " <+: (timeoutMsg t).data :=
    fun t => ⟨(toString t).data ++
      str " seconds. Try narrowing your date range or filters.",
      by simp [timeoutMsg, String.data_append, str]⟩
  have po : ∀ m : String, str "Database operational error: " <+: (operationalErrMsg m).data :=
    fun m => ⟨(pyStripS m).data, by simp [operationalErrMsg, String.data_append, str]⟩
  have pd : ∀ m : String, str "Database error: " <+: (databaseErrMsg m).data :=
    fun m => ⟨(pyStripS m).data, by simp [databaseErrMsg, String.data_append, str]⟩
  have pe : ∀ m : String, str "Execution error: " <+: (executionErrMsg m).data :=
    fun m => ⟨(pyStripS m).data, by simp [executionErrMsg, String.data_append, str]⟩
  refine ⟨?_, ?_, ?_, ?_, ?_⟩
  · intro msg t
    refine ⟨rfl, rfl, rfl, timeoutMsg t, rfl, ?_⟩
    refine ⟨str "Query execution ",
      str " after " ++ (toString t).data ++
        str " seconds. Try narrowing your date range or filters.", ?_⟩
    simp only [timeoutMsg, String.data_append, str, ← List.append_assoc]
    congr 2
  · intro code msg t h
    simp [execute_query, h]
  · intro msg t; rfl
  · intro msg t; rfl
  · intro t msg msg2
    exact ⟨ne_of_incomparable_prefixes (pt t) (po msg) (by decide),
      ne_of_incomparable_prefixes (pt t) (pd msg) (by decide),
      ne_of_incomparable_prefixes (pt t) (pe msg) (by decide),
      ne_of_incomparable_prefixes (po msg) (pd msg2) (by decide),
      ne_of_incomparable_prefixes (po msg) (pe msg2) (by decide),
      ne_of_incomparable_prefixes (pd msg) (pe msg2) (by decide)⟩

/-- Witness for C9: a concrete non-timeout operational error and a
concrete timeout. -/
theorem c9_failure_classification_witness :
    (execute_query (.opErr 1054 "Unknown column") 30).error
      = some (operationalErrMsg "Unknown column") ∧
    (execute_query (.opErr 3024 "interrupted") 30).row_count = 0 := by
  have h := c9_failure_classification.2.1 1054 "Unknown column" 30 (by decide)
  exact ⟨by rw [h], (c9_failure_classification.1 "interrupted" 30).2.2.1⟩

/-! Theorems about the KPI query builder. -/

theorem mem_insertNoDup (l : List String) (x c : String) :
    c ∈ insertNoDup l x ↔ c ∈ l ∨ c = x := by
  by_cases h : x ∈ l
  · simp only [insertNoDup, if_pos h]
    constructor
    · exact Or.inl
    · rintro (hc | rfl)
      · exact hc
      · exact h
  · simp [insertNoDup, h]

theorem insertNoDup_nodup (l : List String) (x : String) (h : l.Nodup) :
    (insertNoDup l x).Nodup := by
  by_cases hx : x ∈ l
  · simpa [insertNoDup, hx] using h
  · simp only [insertNoDup, if_neg hx]
    refine List.Nodup.append h (List.nodup_singleton x) ?_
    intro a ha hax
    rw [List.mem_singleton] at hax
    subst hax
    exact hx ha

/-- The `kpi_info` accumulated by the resolution loop: one entry, in order,
for each occurrence of an id in the mapping. -/
theorem resolveAux_kpi_info (mapping : Nat → Option KpiMeta) (st : ResolveState)
    (ids : List Nat) :
    (resolveAux mapping st ids).kpi_info
      = st.kpi_info ++ ids.filterMap (fun id => (mapping id).map (mkEntry id)) := by
  induction ids generalizing st with
  | nil => simp [resolveAux]
  | cons id rest ih =>
    cases hm : mapping id with
    | none => simp [resolveAux, hm, ih]
    | some m => simp [resolveAux, hm, ih]

/-- Membership in the accumulated chain set. -/
theorem resolveAux_chains_mem (mapping : Nat → Option KpiMeta) (st : ResolveState)
    (ids : List Nat) (c : String) :
    c ∈ (resolveAux mapping st ids).chains ↔
      c ∈ st.chains ∨ c ∈ ids.filterMap (fun id => (mapping id).map KpiMeta.chain) := by
  induction ids generalizing st with
  | nil => simp [resolveAux]
  | cons id rest ih =>
    cases hm : mapping id with
    | none => simp [resolveAux, hm, ih]
    | some m =>
      simp only [resolveAux, hm, ih, List.filterMap_cons, Option.map_some', List.mem_cons]
      rw [mem_insertNoDup]
      tauto

/-- The accumulated chain set has no duplicates. -/
theorem resolveAux_chains_nodup (mapping : Nat → Option KpiMeta) (st : ResolveState)
    (ids : List Nat) (h : st.chains.Nodup) :
    (resolveAux mapping st ids).chains.Nodup := by
  induction ids generalizing st with
  | nil => simpa [resolveAux]
  | cons id rest ih =>
    cases hm : mapping id with
    | none =>
      simp only [resolveAux, hm]
      exact ih st h
    | some m =>
      simp only [resolveAux, hm]
      exact ih _ (insertNoDup_nodup _ _ h)

/-- A resolution over ids none of which are mapped leaves the state
unchanged. -/
theorem resolveAux_all_unmapped (mapping : Nat → Option KpiMeta) (st : ResolveState)
    (ids : List Nat) (h : ∀ id ∈ ids, mapping id = none) :
    resolveAux mapping st ids = st := by
  induction ids generalizing st with
  | nil => rfl
  | cons id rest ih =>
    have hid := h id (by simp)
    simp only [resolveAux, hid]
    exact ih st (fun i hi => h i (by simp [hi]))

/-- Exact shape of the WHERE clause list: both date bounds are always
members; with exactly one distinct chain the list is the two bounds plus
the chain constraint; with zero or at least two distinct chains it is the
two bounds alone. -/
theorem kpiWhereClauses_spec (sd ed : String) (chains : List String) :
    ("mon_year >= \x27" ++ sd ++ "\x27") ∈ kpiWhereClauses sd ed chains ∧
    ("mon_year <= \x27" ++ ed ++ "\x27") ∈ kpiWhereClauses sd ed chains ∧
    (chains.length = 1 → ∃ c, chains = [c] ∧
      kpiWhereClauses sd ed chains =
        ["mon_year >= \x27" ++ sd ++ "\x27", "mon_year <= \x27" ++ ed ++ "\x27",
         "parent_chain_group IN (\x27" ++ c ++ "\x27)"]) ∧
    (chains.length ≠ 1 →
      kpiWhereClauses sd ed chains =
        ["mon_year >= \x27" ++ sd ++ "\x27", "mon_year <= \x27" ++ ed ++ "\x27"]) := by
  refine ⟨?_, ?_, ?_, ?_⟩
  · simp [kpiWhereClauses]
  · simp [kpiWhereClauses]
  · intro h1
    match chains, h1 with
    | [c], _ => exact ⟨c, rfl, by simp [kpiWhereClauses, pyJoin]⟩
  · intro h1
    match chains, h1 with
    | [], _ => simp [kpiWhereClauses]
    | c :: c2 :: rest, _ =>
      have hc : ¬((c :: c2 :: rest : List String) ≠ [] ∧ (c :: c2 :: rest).length < 2) := by
        simp
      simp [kpiWhereClauses, hc]

/-- A member of a joined list is an infix of the join. -/
theorem mem_pyJoin_infix (sep : String) (l : List String) (a : String) (h : a ∈ l) :
    a.data <:+: (pyJoin sep l).data := by
  induction l with
  | nil => cases h
  | cons x rest ih =>
    cases rest with
    | nil =>
      rw [List.mem_singleton] at h
      subst h
      exact List.infix_rfl
    | cons y ys =>
      rcases List.mem_cons.mp h with rfl | h2
      · refine ⟨[], (sep ++ pyJoin sep (y :: ys)).data, ?_⟩
        simp [pyJoin, String.data_append]
      · obtain ⟨s, t, hst⟩ := ih h2
        refine ⟨(x ++ sep).data ++ s, t, ?_⟩
        simp only [pyJoin, String.data_append, ← hst, List.append_assoc]

/-- Every WHERE clause fed to `assembleQuery` is an infix of the emitted
query text. -/
theorem whereClause_infix_query (cols wc : List String) (cl : String) (h : cl ∈ wc) :
    cl.data <:+: (assembleQuery cols wc).data := by
  obtain ⟨s, t, hst⟩ := mem_pyJoin_infix " AND " wc cl h
  refine ⟨("\n        SELECT \n            " : String).data ++ (pyJoin ", " cols).data ++
      ("\n        FROM reddyice_s3_commercial_money\n        WHERE " : String).data ++ s,
    t ++ ("\n        ORDER BY mon_year, parent_chain_group\n    " : String).data, ?_⟩
  simp only [assembleQuery, String.data_append, ← hst, List.append_assoc]

/-- C4: in `build_kpi_query`, the chain set implicated by the resolved KPI
ids is duplicate-free and consists exactly of the chains of the returned
`kpi_info`; every emitted WHERE clause is part of the emitted query text;
both normalized date bounds are always among the WHERE clauses; and the
`parent_chain_group` constraint is present exactly when one distinct chain
is implicated — with zero or several distinct chains the WHERE clauses are
the two date bounds alone. -/
theorem c4_chain_constraint (mapping : Nat → Option KpiMeta) (ids : List Nat)
    (sd ed fr org q : String) (info : List KpiInfoEntry)
    (h : build_kpi_query mapping ids sd ed fr org = some (q, info)) :
    ∃ ed2, get_last_day_of_month ed = some ed2 ∧
      ((resolveKpis mapping ids).chains.Nodup ∧
       (∀ c, c ∈ (resolveKpis mapping ids).chains ↔ c ∈ info.map KpiInfoEntry.chain) ∧
       (∀ cl ∈ kpiWhereClauses (normalize_date_format sd) ed2 (resolveKpis mapping ids).chains,
         cl.data <:+: q.data) ∧
       ("mon_year >= \x27" ++ normalize_date_format sd ++ "\x27")
         ∈ kpiWhereClauses (normalize_date_format sd) ed2 (resolveKpis mapping ids).chains ∧
       ("mon_year <= \x27" ++ ed2 ++ "\x27")
         ∈ kpiWhereClauses (normalize_date_format sd) ed2 (resolveKpis mapping ids).chains ∧
       ((∃ c, (resolveKpis mapping ids).chains = [c] ∧
          ("parent_chain_group IN (\x27" ++ c ++ "\x27)")
            ∈ kpiWhereClauses (normalize_date_format sd) ed2 (resolveKpis mapping ids).chains) ↔
        (resolveKpis mapping ids).chains.length = 1) ∧
       ((resolveKpis mapping ids).chains.length ≠ 1 →
         kpiWhereClauses (normalize_date_format sd) ed2 (resolveKpis mapping ids).chains =
           ["mon_year >= \x27" ++ normalize_date_format sd ++ "\x27",
            "mon_year <= \x27" ++ ed2 ++ "\x27"])) := by
  cases hed : get_last_day_of_month ed with
  | none =>
    rw [build_kpi_query, hed] at h
    exact absurd h (by simp)
  | some ed2 =>
    rw [build_kpi_query, hed] at h
    simp only [Option.some.injEq, Prod.mk.injEq] at h
    obtain ⟨hq, hinfo⟩ := h
    obtain ⟨w1, w2, w3, w4⟩ :=
      kpiWhereClauses_spec (normalize_date_format sd) ed2 (resolveKpis mapping ids).chains
    refine ⟨ed2, rfl, ?_, ?_, ?_, w1, w2, ?_, w4⟩
    · exact resolveAux_chains_nodup mapping ⟨[], [], []⟩ ids (by simp)
    · intro c
      rw [← hinfo]
      simp only [resolveKpis, resolveAux_kpi_info, resolveAux_chains_mem]
      simp [List.map_filterMap, Option.map_map, mkEntry, Function.comp]
    · intro cl hcl
      rw [← hq]
      exact whereClause_infix_query _ _ _ hcl
    · constructor
      · rintro ⟨c, hc, _⟩
        rw [hc]
        rfl
      · intro hlen
        obtain ⟨c, hc, heq⟩ := w3 hlen
        exact ⟨c, hc, by rw [heq]; simp⟩

/-- Witness for C4 at a mapping with one resolved chain. -/
theorem c4_chain_constraint_witness :
    ∃ q info, build_kpi_query
        (fun id => if id = 7 then some ⟨"cy_revenue", "Total Revenue", "dollars", "Customer A"⟩
          else none)
        [7] "2024-01" "2024-03" "monthly" "default" = some (q, info) ∧
      ∃ ed2, get_last_day_of_month "2024-03" = some ed2 := by
  rcases hb : build_kpi_query
      (fun id => if id = 7 then some ⟨"cy_revenue", "Total Revenue", "dollars", "Customer A"⟩
        else none)
      [7] "2024-01" "2024-03" "monthly" "default" with _ | ⟨q, info⟩
  · exact absurd hb (by decide)
  · obtain ⟨ed2, hed2, _⟩ := c4_chain_constraint _ _ _ _ _ _ q info hb
    exact ⟨q, info, rfl, ed2, hed2⟩

/-- A one-entry KPI mapping for concrete instances: id 7 is a revenue KPI
of chain `Customer A`; every other id is unmapped. -/
def demoMeta : KpiMeta := ⟨"cy_revenue", "Total Revenue", "dollars", "Customer A"⟩

/-- See `demoMeta`. -/
def demoMapping : Nat → Option KpiMeta :=
  fun id => if id = 7 then some demoMeta else none

/-- Counterexample for C5: the claim promises exactly one `kpi_info` entry
for each requested id present in the mapping, but requesting the mapped id
7 twice yields two entries for it (the loop appends one entry per
occurrence). -/
theorem c5_duplicate_ids_counterexample :
    (build_kpi_query demoMapping [7, 7] "2024-01" "2024-01" "monthly" "default").map
      (fun p => (p.2.countP (fun e => e.kpi_id == 7), p.2.length)) = some (2, 2) := by
  decide

/-- C5 (amended): `build_kpi_query` returns one `kpi_info` entry per
occurrence of a requested id present in the mapping, in request order
(so a duplicate-free request yields exactly one entry per mapped id and
none for unmapped ids, which are dropped silently); whether a query is
built at all does not depend on the requested ids; and when no requested
id maps, a query is still built, selecting only the fixed projection
columns, with an empty `kpi_info`. -/
theorem c5_kpi_info_resolution (mapping : Nat → Option KpiMeta) (ids : List Nat)
    (sd ed fr org : String) :
    (build_kpi_query mapping ids sd ed fr org).isSome = (get_last_day_of_month ed).isSome ∧
    (∀ q info, build_kpi_query mapping ids sd ed fr org = some (q, info) →
      info = ids.filterMap (fun id => (mapping id).map (mkEntry id))) ∧
    ((∀ id ∈ ids, mapping id = none) →
      build_kpi_query mapping ids sd ed fr org =
        (get_last_day_of_month ed).map (fun ed2 =>
          (assembleQuery baseSelectColumns
            (kpiWhereClauses (normalize_date_format sd) ed2 []), []))) := by
  refine ⟨?_, ?_, ?_⟩
  · cases hed : get_last_day_of_month ed <;> simp [build_kpi_query, hed]
  · intro q info h
    cases hed : get_last_day_of_month ed with
    | none => rw [build_kpi_query, hed] at h; exact absurd h (by simp)
    | some ed2 =>
      rw [build_kpi_query, hed] at h
      simp only [Option.some.injEq, Prod.mk.injEq] at h
      rw [← h.2, resolveKpis, resolveAux_kpi_info]
      simp
  · intro hnone
    cases hed : get_last_day_of_month ed with
    | none => simp [build_kpi_query, hed]
    | some ed2 =>
      rw [build_kpi_query, hed]
      rw [resolveKpis, resolveAux_all_unmapped mapping ⟨[], [], []⟩ ids hnone]
      simp only [Option.map_some', Option.some.injEq, Prod.mk.injEq]
      exact ⟨by rw [show kpiSelectColumns ([] : List String) = baseSelectColumns by decide], trivial⟩

/-- Witness for C5: requesting ids `[7, 8]` with only 7 mapped yields
exactly the one entry for 7. -/
theorem c5_kpi_info_resolution_witness :
    ∃ q, build_kpi_query demoMapping [7, 8] "2024-01" "2024-01" "monthly" "default"
      = some (q, [mkEntry 7 demoMeta]) := by
  rcases hb : build_kpi_query demoMapping [7, 8] "2024-01" "2024-01" "monthly" "default"
    with _ | ⟨q, info⟩
  · have h1 := (c5_kpi_info_resolution demoMapping [7, 8] "2024-01" "2024-01" "monthly" "default").1
    rw [hb] at h1
    exact absurd h1 (by decide)
  · have h2 := (c5_kpi_info_resolution demoMapping [7, 8] "2024-01" "2024-01" "monthly" "default").2.1
      q info hb
    have h3 : ([7, 8].filterMap (fun id => (demoMapping id).map (mkEntry id)))
        = [mkEntry 7 demoMeta] := by decide
    exact ⟨q, by rw [h2, h3]⟩

/-- C6: the date-range normalization of `build_kpi_query` sets the lower
bound to the first day of the start month and the upper bound to the last
calendar day of the end month, respecting leap years: for the range
2024-01 to 2024-01 the emitted query bounds `mon_year` by 2024-01-01 and
2024-01-31, and for 2024-02 to 2024-02 the upper bound is 2024-02-29. -/
theorem c6_date_normalization :
    normalize_date_format "2024-01" = "2024-01-01" ∧
    get_last_day_of_month "2024-01" = some "2024-01-31" ∧
    get_last_day_of_month "2024-02" = some "2024-02-29" ∧
    (∀ mapping ids fr org, ∃ q info,
      build_kpi_query mapping ids "2024-01" "2024-01" fr org = some (q, info) ∧
      (str "mon_year >= \x272024-01-01\x27") <:+: q.data ∧
      (str "mon_year <= \x272024-01-31\x27") <:+: q.data) ∧
    (∀ mapping ids fr org, ∃ q info,
      build_kpi_query mapping ids "2024-02" "2024-02" fr org = some (q, info) ∧
      (str "mon_year <= \x272024-02-29\x27") <:+: q.data) := by
  refine ⟨by decide, by decide, by decide, ?_, ?_⟩
  · intro mapping ids fr org
    refine ⟨assembleQuery (kpiSelectColumns (resolveKpis mapping ids).columns)
        (kpiWhereClauses "2024-01-01" "2024-01-31" (resolveKpis mapping ids).chains),
      (resolveKpis mapping ids).kpi_info, ?_, ?_, ?_⟩
    · rw [build_kpi_query, show get_last_day_of_month "2024-01" = some "2024-01-31" by decide]
      rw [show normalize_date_format "2024-01" = "2024-01-01" by decide]
    · have hmem := (kpiWhereClauses_spec "2024-01-01" "2024-01-31"
        (resolveKpis mapping ids).chains).1
      have h := whereClause_infix_query
        (kpiSelectColumns (resolveKpis mapping ids).columns) _ _ hmem
      have he : (("mon_year >= \x27" ++ "2024-01-01" ++ "\x27") : String).data
          = str "mon_year >= \x272024-01-01\x27" := by decide
      rwa [he] at h
    · have hmem := (kpiWhereClauses_spec "2024-01-01" "2024-01-31"
        (resolveKpis mapping ids).chains).2.1
      have h := whereClause_infix_query
        (kpiSelectColumns (resolveKpis mapping ids).columns) _ _ hmem
      have he : (("mon_year <= \x27" ++ "2024-01-31" ++ "\x27") : String).data
          = str "mon_year <= \x272024-01-31\x27" := by decide
      rwa [he] at h
  · intro mapping ids fr org
    refine ⟨assembleQuery (kpiSelectColumns (resolveKpis mapping ids).columns)
        (kpiWhereClauses "2024-02-01" "2024-02-29" (resolveKpis mapping ids).chains),
      (resolveKpis mapping ids).kpi_info, ?_, ?_⟩
    · rw [build_kpi_query, show get_last_day_of_month "2024-02" = some "2024-02-29" by decide]
      rw [show normalize_date_format "2024-02" = "2024-02-01" by decide]
    · have hmem := (kpiWhereClauses_spec "2024-02-01" "2024-02-29"
        (resolveKpis mapping ids).chains).2.1
      have h := whereClause_infix_query
        (kpiSelectColumns (resolveKpis mapping ids).columns) _ _ hmem
      have he : (("mon_year <= \x27" ++ "2024-02-29" ++ "\x27") : String).data
          = str "mon_year <= \x272024-02-29\x27" := by decide
      rwa [he] at h

/-! Theorems about result formatting. -/

/-- Counterexample for C7: the percentage branch tests the signed value,
not its magnitude.  For the raw value -2 the magnitude is not below 1, so
the claim predicts as-is formatting "-2.00%", but the code multiplies by
100 and renders "-200.00%". -/
theorem c7_signed_comparison_counterexample :
    format_kpi_results [[("cy_oos_percent", Val.num (-2))]] []
      = some [[("cy_oos_percent", Val.num (-2)),
               ("cy_oos_percent_formatted", Val.txt "-200.00%")]] ∧
    ("-200.00%" : String) ≠ "-2.00%" := by
  exact ⟨by decide, by decide⟩

/-- C7 (amended): for a column whose lowercased name contains "percent" or
"oos", is not captured by the earlier revenue rule, and holds a non-null
numeric value, the formatter preserves the raw value and adds a
`_formatted` twin rendered to 2 decimals with a `%` suffix, multiplying by
100 exactly when the raw signed value is below 1 (so negative values at or
below -1 are also multiplied by 100, not formatted as-is). -/
theorem c7_percent_formatting (key : String) (v : ℚ)
    (hrev : containsSub "revenue" (pyLower key) = false)
    (hper : containsSub "percent" (pyLower key) = true ∨
      containsSub "oos" (pyLower key) = true) :
    cellFormat key (Val.num v)
      = some [(key, Val.num v),
        (key ++ "_formatted",
          Val.txt ((if v < 1 then fixed2 (v * 100) else fixed2 v) ++ "%"))] := by
  rcases hper with hp | hp <;> simp [cellFormat, hrev, hp]

/-- Witness for C7 (amended): a fractional out-of-stock value is scaled to
a percentage. -/
theorem c7_percent_formatting_witness :
    cellFormat "cy_oos_percent" (Val.num (1/4))
      = some [("cy_oos_percent", Val.num (1/4)),
        ("cy_oos_percent_formatted", Val.txt "25.00%")] := by
  have h := c7_percent_formatting "cy_oos_percent" (1/4) (by decide) (Or.inr (by decide))
  rw [h]
  decide

/-! Theorems about data-quality validation. -/

/-- A 100-row result set whose `cy_revenue` column is null in 60 rows. -/
def demoRows60 : List Row :=
  List.replicate 60 [("cy_revenue", Val.null)] ++
    List.replicate 40 [("cy_revenue", Val.num 1)]

/-- A 100-row result set whose `cy_revenue` column is null in 30 rows. -/
def demoRows30 : List Row :=
  List.replicate 30 [("cy_revenue", Val.null)] ++
    List.replicate 70 [("cy_revenue", Val.num 1)]

/-- C8: `validate_data_quality` marks a result set invalid exactly when
some issue is recorded; a column null in 60 of 100 rows is an issue naming
the column, with `valid = false`; a column null in 30 of 100 rows is a
warning only, with `valid = true`; and an empty result set yields
`valid = false` with the no-data issue and `row_count = 0`. -/
theorem c8_data_quality :
    (∀ rows dq, validate_data_quality rows = some dq →
      (dq.valid = true ↔ dq.issues = [])) ∧
    validate_data_quality demoRows60
      = some ⟨false, ["Column \x27cy_revenue\x27 has 60.0% null values"], [], 100⟩ ∧
    validate_data_quality demoRows30
      = some ⟨true, [], ["Column \x27cy_revenue\x27 has 30.0% null values"], 100⟩ ∧
    validate_data_quality []
      = some ⟨false, ["No data returned for the specified date range and KPI IDs"], [], 0⟩ := by
  refine ⟨?_, by decide, by decide, by decide⟩
  intro rows dq h
  unfold validate_data_quality at h
  by_cases he : rows.isEmpty
  · rw [if_pos he] at h
    injection h with h'
    subst h'
    simp
  · rw [if_neg he] at h
    cases ho : numericColumns.mapM (outlierWarnings rows) with
    | none => rw [ho] at h; exact absurd h (by simp)
    | some outl =>
      rw [ho] at h
      injection h with h'
      subst h'
      simp [List.isEmpty_iff]

/-- Witness for C8: the validity flag of the empty result set matches its
recorded issues. -/
theorem c8_data_quality_witness :
    ∃ dq, validate_data_quality [] = some dq ∧ (dq.valid = true ↔ dq.issues = []) :=
  ⟨⟨false, ["No data returned for the specified date range and KPI IDs"], [], 0⟩,
    c8_data_quality.2.2.2, c8_data_quality.1 _ _ c8_data_quality.2.2.2⟩

end Gateway
